/-
Verification of the flight-tracker repository against its specification.

The repository is a browser-based flight log (React + TypeScript).  The
development below is a shallow embedding of the parts of the code the
claims are about:

* the `Flight` data model (`src/pages/Index.tsx`);
* the two pure feature projections inside `updateMapData`
  (`src/components/FlightMap.tsx`);
* the map-synchronization state machine of `FlightMap`
  (`isMapLoaded` / `sourcesInitialized` / `pendingFlights` refs and the
  `load` handler, Effect 2 and `initializeSourcesAndLayers`);
* the share-URL encoding/decoding pipeline (`generateShareUrl` and the
  load effect of `Index.tsx`), together with models of the platform
  primitives it uses (`JSON.stringify` / `JSON.parse` on the payload
  shape, `btoa` / `atob` forgiving base64, `URLSearchParams`);
* the haversine `calculateDistance` (over the real numbers);
* the two date-display paths (`FlightList.formatDate` and the
  `new Date(string)` popup path of `FlightMap`);
* the form validation of `FlightForm.handleSubmit` and
  `EditFlightDialog.handleSubmit`;
* `deleteFlight` of `Index.tsx`.

Numbers that appear in flight data (coordinates) are JSON decimals; they
are modelled by the type `Decimal` below (integer mantissa and a power of
ten), whose value-level equality models JavaScript number equality.
-/
import Mathlib

/-! ## Decimal numbers and coordinates

JavaScript numbers that occur in flight records are finite decimals
(airport coordinates with four fractional digits, integer distances).
`Decimal` represents `m / 10 ^ e`.  Equality of JavaScript numbers is
value equality, modelled by `Decimal.veq`. -/

structure Decimal where
  m : Int
  e : Nat
deriving DecidableEq, Repr

namespace Decimal

/-- Value equality `m₁ / 10^e₁ = m₂ / 10^e₂`, cross-multiplied.  This is
the model of `===` between two JavaScript numbers. -/
def veq (a b : Decimal) : Bool :=
  a.m * (10 : Int) ^ b.e == b.m * (10 : Int) ^ a.e

theorem veq_refl (a : Decimal) : veq a a = true := by
  simp [veq]

theorem veq_symm {a b : Decimal} (h : veq a b = true) : veq b a = true := by
  simp only [veq, beq_iff_eq] at h ⊢
  omega

theorem veq_trans {a b c : Decimal} (h₁ : veq a b = true) (h₂ : veq b c = true) :
    veq a c = true := by
  simp only [veq, beq_iff_eq] at h₁ h₂ ⊢
  have hpow : (10 : Int) ^ b.e ≠ 0 := pow_ne_zero _ (by norm_num)
  have : (a.m * 10 ^ c.e) * 10 ^ b.e = (c.m * 10 ^ a.e) * 10 ^ b.e := by
    calc (a.m * 10 ^ c.e) * 10 ^ b.e = (a.m * 10 ^ b.e) * 10 ^ c.e := by ring
    _ = (b.m * 10 ^ a.e) * 10 ^ c.e := by rw [h₁]
    _ = (b.m * 10 ^ c.e) * 10 ^ a.e := by ring
    _ = (c.m * 10 ^ b.e) * 10 ^ a.e := by rw [h₂]
    _ = (c.m * 10 ^ a.e) * 10 ^ b.e := by ring
  exact mul_right_cancel₀ hpow this

end Decimal

/-- Shorthand used to transcribe decimal literals from the source:
`dec m e` is the literal whose digits are `m` with `e` fractional
digits, e.g. `-84.4281 = dec (-844281) 4`. -/
def dec (m : Int) (e : Nat) : Decimal := ⟨m, e⟩

/-- A `(longitude, latitude)` pair, as stored in `fromCoords` / `toCoords`.
(`from` is a reserved word in Lean, so the `from` fields of the source are
transcribed as `from_`, and likewise `to` as `to_`, throughout.) -/
abbrev Coord : Type := Decimal × Decimal

/-- Value equality of coordinate pairs (JavaScript `===` on both numbers). -/
def Coord.veq (a b : Coord) : Bool := Decimal.veq a.1 b.1 && Decimal.veq a.2 b.2

/-! ## The Flight data model (`src/pages/Index.tsx`, interface `Flight`) -/

structure Flight where
  id : String
  from_ : String
  to_ : String
  fromCoords : Coord
  toCoords : Coord
  date : String
  aircraft : String
  airline : String
  distance : Int
deriving DecidableEq, Repr

/-! ## Feature projections (`updateMapData` in `src/components/FlightMap.tsx`)

`updateMapData` builds `routeFeatures` by `currentFlights.map` and
`airportFeatures` by `currentFlights.flatMap`, then filters
`airportFeatures` down to `uniqueAirports` keeping each feature whose
index equals the `findIndex` of the first feature with the same
coordinates. -/

structure RouteProps where
  flightId : String
  from_ : String
  to_ : String
  airline : String
  aircraft : String
  date : String
deriving DecidableEq, Repr

structure RouteFeature where
  properties : RouteProps
  /-- LineString geometry: `[flight.fromCoords, flight.toCoords]`. -/
  coordinates : List Coord
deriving DecidableEq, Repr

/-- The feature built for one flight in `routeFeatures` (lines 35–49). -/
def routeFeature (flight : Flight) : RouteFeature :=
  { properties :=
      { flightId := flight.id
        from_ := flight.from_
        to_ := flight.to_
        airline := flight.airline
        aircraft := flight.aircraft
        date := flight.date }
    coordinates := [flight.fromCoords, flight.toCoords] }

/-- `routeFeatures` (lines 35–49): one LineString feature per flight, by `map`. -/
def projectRoutes (currentFlights : List Flight) : List RouteFeature :=
  currentFlights.map routeFeature

structure PointFeature where
  airport : String
  /-- The `type` property: `"departure"` or `"arrival"`. -/
  kind : String
  coordinates : Coord
deriving DecidableEq, Repr

/-- `airportFeatures` (lines 51–74): two Point features per flight,
departure then arrival, flattened in input order. -/
def airportFeatures (currentFlights : List Flight) : List PointFeature :=
  currentFlights.flatMap fun flight =>
    [ { airport := flight.from_, kind := "departure", coordinates := flight.fromCoords },
      { airport := flight.to_, kind := "arrival", coordinates := flight.toCoords } ]

/-- The coordinate comparison of the dedup predicate (lines 78–81):
`a.geometry.coordinates[0] === airport.geometry.coordinates[0] &&
 a.geometry.coordinates[1] === airport.geometry.coordinates[1]`. -/
def coordEq (a b : PointFeature) : Bool := Coord.veq a.coordinates b.coordinates

/-- `uniqueAirports` (lines 76–82): JavaScript
`self.filter((airport, index, self) => index === self.findIndex(a => sameCoords a airport))`,
i.e. keep a feature exactly when it is the first occurrence of its
coordinates in the flattened list. -/
def uniqueAirports (self : List PointFeature) : List PointFeature :=
  (self.enum.filter fun p => self.findIdx (fun a => coordEq a p.2) == p.1).map Prod.snd

/-- The airport projection: `airportFeatures` de-duplicated. -/
def projectAirports (currentFlights : List Flight) : List PointFeature :=
  uniqueAirports (airportFeatures currentFlights)

/-! ## Properties of the projections -/

theorem coordEq_refl (a : PointFeature) : coordEq a a = true := by
  simp [coordEq, Coord.veq, Decimal.veq_refl]

theorem coordEq_symm {a b : PointFeature} (h : coordEq a b = true) : coordEq b a = true := by
  simp only [coordEq, Coord.veq, Bool.and_eq_true] at h ⊢
  exact ⟨Decimal.veq_symm h.1, Decimal.veq_symm h.2⟩

theorem coordEq_trans {a b c : PointFeature} (h₁ : coordEq a b = true)
    (h₂ : coordEq b c = true) : coordEq a c = true := by
  simp only [coordEq, Coord.veq, Bool.and_eq_true] at h₁ h₂ ⊢
  exact ⟨Decimal.veq_trans h₁.1 h₂.1, Decimal.veq_trans h₁.2 h₂.2⟩

theorem coordEq_congr {a b : PointFeature} (h : coordEq a b = true) (x : PointFeature) :
    coordEq x a = coordEq x b := by
  cases hxa : coordEq x a with
  | true => exact (coordEq_trans hxa h).symm
  | false =>
    cases hxb : coordEq x b with
    | true => exact absurd (coordEq_trans hxb (coordEq_symm h)) (by simp [hxa])
    | false => rfl

theorem length_airportFeatures (L : List Flight) :
    (airportFeatures L).length = 2 * L.length := by
  induction L with
  | nil => rfl
  | cons f t ih => simp [airportFeatures, List.flatMap_cons] at ih ⊢; omega

/-- Membership characterization of the dedup: a feature survives exactly
when it is the first feature of the flattened list carrying its
coordinates. -/
theorem mem_uniqueAirports_iff (self : List PointFeature) (a : PointFeature) :
    a ∈ uniqueAirports self ↔ self.find? (fun b => coordEq b a) = some a := by
  constructor
  · intro ha
    obtain ⟨⟨i, a'⟩, hmem, rfl⟩ := List.mem_map.1 ha
    obtain ⟨henum, hp⟩ := List.mem_filter.1 hmem
    rw [List.mem_enum_iff_getElem?] at henum
    simp only [beq_iff_eq] at hp
    obtain ⟨hi, hget⟩ := List.getElem?_eq_some_iff.1 henum
    have hidx := (List.findIdx_eq (p := fun b => coordEq b a') hi).1 hp
    rw [List.find?_eq_some_iff_getElem]
    exact ⟨coordEq_refl _, i, hi, hget, fun j hj => by
      simp [List.not_of_lt_findIdx (hp ▸ hj)]⟩
  · intro hfind
    obtain ⟨hself, i, hi, hget, hbefore⟩ := List.find?_eq_some_iff_getElem.1 hfind
    have hidx : self.findIdx (fun b => coordEq b a) = i :=
      (List.findIdx_eq hi).2 ⟨hget ▸ hself, fun j hj => by
        have := hbefore j hj; simpa using this⟩
    refine List.mem_map.2 ⟨(i, a), List.mem_filter.2 ⟨?_, ?_⟩, rfl⟩
    · exact List.mem_enum_iff_getElem?.2 (List.getElem?_eq_some_iff.2 ⟨hi, hget⟩)
    · simpa using hidx

theorem pairwise_enum_fst {α : Type _} (l : List α) :
    l.enum.Pairwise (fun q r => q.1 < r.1) := by
  rw [List.pairwise_iff_getElem]
  intro i j hi hj hij
  rw [List.getElem_enum, List.getElem_enum]
  exact hij

theorem uniqueAirports_pairwise (self : List PointFeature) :
    (uniqueAirports self).Pairwise (fun a b => coordEq a b = false) := by
  rw [uniqueAirports, List.pairwise_map]
  have hp : (self.enum.filter
      fun p => self.findIdx (fun a => coordEq a p.2) == p.1).Pairwise
      (fun q r => q.1 < r.1) :=
    (pairwise_enum_fst self).filter _
  refine hp.imp_of_mem ?_
  intro q r hq hr hlt
  obtain ⟨-, hpq⟩ := List.mem_filter.1 hq
  obtain ⟨-, hpr⟩ := List.mem_filter.1 hr
  simp only [beq_iff_eq] at hpq hpr
  cases hqr : coordEq q.2 r.2 with
  | false => rfl
  | true =>
    exfalso
    have hfun : (fun b => coordEq b q.2) = fun b => coordEq b r.2 :=
      funext fun x => coordEq_congr hqr x
    rw [← hpq, ← hpr, hfun] at hlt
    exact lt_irrefl _ hlt

theorem uniqueAirports_sublist (self : List PointFeature) :
    (uniqueAirports self).Sublist self := by
  have h := (List.filter_sublist (p := fun p =>
      self.findIdx (fun a => coordEq a p.2) == p.1) self.enum).map Prod.snd
  rw [List.enum_map_snd] at h
  exact h

theorem uniqueAirports_covers (self : List PointFeature) :
    ∀ a ∈ self, ∃ b ∈ uniqueAirports self, coordEq a b = true := by
  intro a ha
  cases hfind : self.find? (fun b => coordEq b a) with
  | none =>
    exact absurd (List.find?_eq_none.1 hfind a ha (coordEq_refl a)) (by simp)
  | some b =>
    obtain ⟨hba, i, hi, hget, hbefore⟩ := List.find?_eq_some_iff_getElem.1 hfind
    refine ⟨b, (mem_uniqueAirports_iff self b).2 ?_, coordEq_symm hba⟩
    rw [List.find?_eq_some_iff_getElem]
    refine ⟨coordEq_refl b, i, hi, hget, fun j hj => ?_⟩
    have hj' := hbefore j hj
    cases hjb : coordEq self[j] b with
    | false => simp
    | true => exact absurd (coordEq_trans hjb hba) (by simpa using hj')

theorem airportFeatures_getElem? (L : List Flight) (i : Nat) :
    (airportFeatures L)[2*i]? =
      L[i]?.map (fun f => ⟨f.from_, "departure", f.fromCoords⟩) ∧
    (airportFeatures L)[2*i+1]? =
      L[i]?.map (fun f => ⟨f.to_, "arrival", f.toCoords⟩) := by
  induction L generalizing i with
  | nil => simp [airportFeatures]
  | cons f t ih =>
    cases i with
    | zero => simp [airportFeatures, List.flatMap_cons]
    | succ n =>
      have h2 : 2 * (n + 1) = (2 * n + 1) + 1 := by ring
      simp only [airportFeatures, List.flatMap_cons] at ih ⊢
      rw [h2]
      simpa using ih n

/-- C4: for every flight list `L`, the route projection produces exactly
`len L` LineString features, one per flight in input order (no sorting),
each with geometry `[fromCoords, toCoords]` of the corresponding flight
and properties `flightId`/`from`/`to`/`airline`/`aircraft`/`date`; an
empty list yields zero features. -/
theorem claimC4_routes_projection (L : List Flight) :
    (projectRoutes L).length = L.length ∧
    (∀ i : Nat, (projectRoutes L)[i]? = L[i]?.map (fun f =>
      { properties := { flightId := f.id, from_ := f.from_, to_ := f.to_,
                        airline := f.airline, aircraft := f.aircraft, date := f.date }
        coordinates := [f.fromCoords, f.toCoords] })) ∧
    projectRoutes [] = [] := by
  refine ⟨List.length_map .., fun i => ?_, rfl⟩
  rw [projectRoutes, List.getElem?_map]
  cases L[i]? with
  | none => rfl
  | some f => rfl

/-- C3: the airport projection flattens two point features per flight
(departure at index `2i`, arrival at index `2i+1`, in input flight
order), then de-duplicates by exact coordinate-pair equality keeping the
first occurrence in flattened order (regardless of the departure/arrival
tag): the result has at most `2 * len L` features, no two of its features
share identical coordinates, a feature survives iff it is the first one
carrying its coordinates, every dropped feature has an earlier surviving
representative with equal coordinates, and the survivors keep flattened
order. -/
theorem claimC3_airports_dedup (L : List Flight) :
    (projectAirports L).length ≤ 2 * L.length ∧
    (projectAirports L).Pairwise (fun a b => coordEq a b = false) ∧
    (∀ a : PointFeature, a ∈ projectAirports L ↔
        (airportFeatures L).find? (fun b => coordEq b a) = some a) ∧
    (∀ a ∈ airportFeatures L, ∃ b ∈ projectAirports L, coordEq a b = true) ∧
    (projectAirports L).Sublist (airportFeatures L) ∧
    (∀ i : Nat,
      (airportFeatures L)[2*i]? =
        L[i]?.map (fun f => ⟨f.from_, "departure", f.fromCoords⟩) ∧
      (airportFeatures L)[2*i+1]? =
        L[i]?.map (fun f => ⟨f.to_, "arrival", f.toCoords⟩)) := by
  refine ⟨?_, uniqueAirports_pairwise _, mem_uniqueAirports_iff _, uniqueAirports_covers _,
    uniqueAirports_sublist _, airportFeatures_getElem? L⟩
  calc (projectAirports L).length ≤ (airportFeatures L).length :=
        (uniqueAirports_sublist _).length_le
    _ = 2 * L.length := length_airportFeatures L

/-- Example flights used by concrete witnesses: the scenario of §8 of the
spec, `JFK→LHR` and `LHR→CDG` (coordinates from the geocode table in
`src/src/components/FlightForm.tsx`). -/
def exFlightA : Flight :=
  { id := "1", from_ := "JFK", to_ := "LHR"
    fromCoords := (dec (-737781) 4, dec 406413 4)
    toCoords := (dec (-4543) 4, dec 514700 4)
    date := "2024-01-01", aircraft := "Boeing 747", airline := "BA", distance := 3451 }

def exFlightB : Flight :=
  { id := "2", from_ := "LHR", to_ := "CDG"
    fromCoords := (dec (-4543) 4, dec 514700 4)
    toCoords := (dec 25479 4, dec 490097 4)
    date := "2024-02-01", aircraft := "Airbus A320", airline := "AF", distance := 214 }

def exFlights : List Flight := [exFlightA, exFlightB]

/-- Witness for C3 at the spec's §8 scenario: two flights sharing `LHR`;
the departure feature of the first flight is in the flattened list and
has a surviving coordinate-equal representative. -/
theorem claimC3_witness :
    (projectAirports exFlights).length ≤ 2 * exFlights.length ∧
    ∃ b ∈ projectAirports exFlights,
      coordEq ⟨"JFK", "departure", (dec (-737781) 4, dec 406413 4)⟩ b = true :=
  ⟨(claimC3_airports_dedup exFlights).1,
   (claimC3_airports_dedup exFlights).2.2.2.1 _ (by decide)⟩

/-! ## The map-synchronization state machine (`src/components/FlightMap.tsx`)

The component state is the map handle (`map.current`, modelled by
`mapExists`), the three refs `isMapLoaded`, `sourcesInitialized`,
`pendingFlights`, and the state of the map surface itself: the data of
the two GeoJSON sources (`none` while `addSource` has not run), the
registered layers and interaction handlers, and a log of the
`setData` calls performed by `updateMapData` (one entry per processed
snapshot, recording the snapshot). -/

structure MapState where
  mapExists : Bool
  isMapLoaded : Bool
  sourcesInitialized : Bool
  pendingFlights : List Flight
  /-- Data of the `routes` GeoJSON source; `none` before `addSource('routes', …)`. -/
  routesData : Option (List RouteFeature)
  /-- Data of the `airports` GeoJSON source; `none` before `addSource('airports', …)`. -/
  airportsData : Option (List PointFeature)
  /-- Ids passed to `addLayer`, in registration order. -/
  layers : List String
  /-- `(layerId, event)` pairs passed to `mapInstance.on`, in registration order. -/
  handlers : List (String × String)
  /-- Log of the snapshots pushed by `setData` in `updateMapData`
  (lines 90–102), in order. -/
  writeLog : List (List Flight)
deriving DecidableEq, Repr

/-- `updateMapData` (lines 21–106).  Guard: if the map instance is
missing, the map is not loaded, or the sources are not initialized,
store the snapshot as pending and return.  Otherwise project both
feature collections, `setData` each existing source, and clear the
pending buffer. -/
def updateMapData (currentFlights : List Flight) (s : MapState) : MapState :=
  if !(s.mapExists && s.isMapLoaded && s.sourcesInitialized) then
    { s with pendingFlights := currentFlights }
  else
    { s with
      routesData := if s.routesData.isSome then some (projectRoutes currentFlights)
                    else s.routesData
      airportsData := if s.airportsData.isSome then some (projectAirports currentFlights)
                      else s.airportsData
      writeLog := s.writeLog ++ [currentFlights]
      pendingFlights := [] }

/-- `initializeSourcesAndLayers` (lines 109–207).  No-op when the map
instance is missing or `sourcesInitialized` is already set; otherwise
register the two sources with empty data, the two layers, the four
interaction handlers, set `sourcesInitialized`, and process a non-empty
pending snapshot through `updateMapData`. -/
def initializeSourcesAndLayers (s : MapState) : MapState :=
  if !s.mapExists || s.sourcesInitialized then s
  else
    let s' : MapState :=
      { s with
        routesData := some []
        airportsData := some []
        layers := s.layers ++ ["routes", "airports"]
        handlers := s.handlers ++
          [("routes", "click"), ("airports", "click"),
           ("routes", "mouseenter"), ("routes", "mouseleave")]
        sourcesInitialized := true }
    if s'.pendingFlights.length > 0 then updateMapData s'.pendingFlights s' else s'

/-- The `load` handler registered in Effect 1 (lines 229–237): set
`isMapLoaded`, then initialize sources and layers.  (It only runs while
the map instance exists.) -/
def onMapLoad (s : MapState) : MapState :=
  if s.mapExists then initializeSourcesAndLayers { s with isMapLoaded := true } else s

/-- Effect 2 (lines 253–268), the entry point for a new flight snapshot:
if map, load flag and sources are all ready, run `updateMapData`;
otherwise store the snapshot as pending. -/
def submitFlights (flights : List Flight) (s : MapState) : MapState :=
  if s.mapExists && s.isMapLoaded && s.sourcesInitialized then
    updateMapData flights s
  else
    { s with pendingFlights := flights }

/-- The cleanup of Effect 1 (lines 240–249): destroy the map, reset all
flags and buffers.  (Not needed by the claims; included for fidelity of
the lifecycle.) -/
def cleanupMap (s : MapState) : MapState :=
  { s with mapExists := false, isMapLoaded := false,
           sourcesInitialized := false, pendingFlights := [] }

/-- The controller is `Ready` exactly when the map instance exists, the
load signal has fired, and sources/layers are registered. -/
def MapState.ready (s : MapState) : Prop :=
  s.mapExists = true ∧ s.isMapLoaded = true ∧ s.sourcesInitialized = true

instance (s : MapState) : Decidable s.ready := by
  unfold MapState.ready; infer_instance

/-- C1: a snapshot submitted while not `Ready` performs no layer/source
write — it only replaces the pending buffer — and when the controller
enters `Ready` (sources initialized upon the map load signal) the
buffered snapshot is applied: afterwards both sources hold exactly its
projections, the buffer is cleared, and the write log is extended by
exactly one `setData` application of the buffered snapshot (none when
the buffer was the initial empty snapshot, whose projections are already
the just-registered empty collections). -/
theorem claimC1_buffer_until_ready (s : MapState) (flights : List Flight) :
    (¬ s.ready → submitFlights flights s = { s with pendingFlights := flights }) ∧
    (s.mapExists = true → s.sourcesInitialized = false →
      onMapLoad s =
        { s with
          isMapLoaded := true
          sourcesInitialized := true
          pendingFlights := []
          routesData := some (projectRoutes s.pendingFlights)
          airportsData := some (projectAirports s.pendingFlights)
          layers := s.layers ++ ["routes", "airports"]
          handlers := s.handlers ++
            [("routes", "click"), ("airports", "click"),
             ("routes", "mouseenter"), ("routes", "mouseleave")]
          writeLog := s.writeLog ++
            (if s.pendingFlights.length > 0 then [s.pendingFlights] else []) }) := by
  obtain ⟨me, ml, si, pf, rd, ad, ly, hd, wl⟩ := s
  constructor
  · intro hnr
    have : (me && ml && si) = false := by
      rcases me <;> rcases ml <;> rcases si <;> simp_all [MapState.ready]
    simp [submitFlights, this]
  · intro hm hs
    dsimp only at hm hs
    subst hm; subst hs
    cases pf with
    | nil =>
      simp [onMapLoad, initializeSourcesAndLayers, projectRoutes, projectAirports,
        uniqueAirports, airportFeatures]
    | cons a t =>
      simp [onMapLoad, initializeSourcesAndLayers, updateMapData]

/-- C2: registration is idempotent per surface instance.  If the
`sourcesInitialized` guard is already set, `initializeSourcesAndLayers`
is a no-op, and a re-delivered `load` signal changes nothing but the
(already true) `isMapLoaded` flag: no duplicate `addSource`/`addLayer`
registration and no duplicate interaction handler is added. -/
theorem claimC2_idempotent_registration (s : MapState)
    (h : s.sourcesInitialized = true) :
    initializeSourcesAndLayers s = s ∧
    (s.mapExists = true → onMapLoad s = { s with isMapLoaded := true }) := by
  have hinit : ∀ t : MapState, t.sourcesInitialized = true →
      initializeSourcesAndLayers t = t := by
    intro t ht
    rw [initializeSourcesAndLayers, ht]
    simp
  refine ⟨hinit s h, fun hm => ?_⟩
  obtain ⟨me, ml, si, pf, rd, ad, ly, hd, wl⟩ := s
  dsimp only at h hm
  subst h; subst hm
  simp [onMapLoad, initializeSourcesAndLayers]

/-- A freshly-mounted controller: map created, load signal not yet fired. -/
def initialMapState : MapState :=
  ⟨true, false, false, [], none, none, [], [], []⟩

def bufferedMapState : MapState :=
  { initialMapState with pendingFlights := exFlights }

/-- Witness for C1: on a fresh (not `Ready`) controller, submitting the
example snapshot only fills the buffer, and the load signal then applies
the buffered snapshot exactly once. -/
theorem claimC1_witness :
    submitFlights exFlights initialMapState =
      { initialMapState with pendingFlights := exFlights } ∧
    onMapLoad bufferedMapState =
      { bufferedMapState with
        isMapLoaded := true
        sourcesInitialized := true
        pendingFlights := []
        routesData := some (projectRoutes exFlights)
        airportsData := some (projectAirports exFlights)
        layers := ["routes", "airports"]
        handlers := [("routes", "click"), ("airports", "click"),
                     ("routes", "mouseenter"), ("routes", "mouseleave")]
        writeLog := [exFlights] } := by
  refine ⟨(claimC1_buffer_until_ready initialMapState exFlights).1 (by decide), ?_⟩
  have h := (claimC1_buffer_until_ready bufferedMapState exFlights).2 rfl rfl
  rw [h]
  decide

/-- A controller that has already registered its sources, layers and
handlers. -/
def readyMapState : MapState :=
  ⟨true, true, true, [], some [], some [], ["routes", "airports"],
   [("routes", "click"), ("airports", "click"),
    ("routes", "mouseenter"), ("routes", "mouseleave")], []⟩

/-- Witness for C2: a re-delivered ready/load signal on an
already-initialized controller registers nothing twice. -/
theorem claimC2_witness :
    initializeSourcesAndLayers readyMapState = readyMapState ∧
    onMapLoad readyMapState = { readyMapState with isMapLoaded := true } :=
  ⟨(claimC2_idempotent_registration readyMapState rfl).1,
   (claimC2_idempotent_registration readyMapState rfl).2 rfl⟩

/-! ## Deleting a flight (`deleteFlight` in `src/pages/Index.tsx`, lines 103–105) -/

/-- `deleteFlight`: `setFlights(prev => prev.filter(flight => flight.id !== id))`. -/
def deleteFlight (id : String) (prev : List Flight) : List Flight :=
  prev.filter fun flight => flight.id != id

/-- C10: deleting an id removes exactly the flights carrying that id:
the result is a sublist of the original (every other flight unchanged in
value and relative order), contains no flight with the deleted id, keeps
every flight with a different id with its exact multiplicity, and is the
whole original list when the id does not occur. -/
theorem claimC10_delete_frame (id : String) (L : List Flight) :
    (deleteFlight id L).Sublist L ∧
    (∀ f ∈ deleteFlight id L, f.id ≠ id) ∧
    (∀ f ∈ L, f.id ≠ id → f ∈ deleteFlight id L) ∧
    (∀ f : Flight, (deleteFlight id L).count f =
        if f.id = id then 0 else L.count f) ∧
    ((∀ f ∈ L, f.id ≠ id) → deleteFlight id L = L) := by
  refine ⟨List.filter_sublist L, ?_, ?_, ?_, ?_⟩
  · intro f hf
    have := (List.mem_filter.1 hf).2
    simpa using this
  · intro f hf hne
    exact List.mem_filter.2 ⟨hf, by simpa using hne⟩
  · intro f
    by_cases hid : f.id = id
    · rw [if_pos hid, List.count_eq_zero]
      intro hf
      exact absurd ((List.mem_filter.1 hf).2) (by simp [hid])
    · rw [if_neg hid, deleteFlight, List.count_filter (by simpa using hid)]
  · intro hall
    exact List.filter_eq_self.2 fun f hf => by simpa using hall f hf

/-- Witness for C10 on the example list: deleting id `"1"` keeps exactly
the second flight, and deleting an absent id is the identity. -/
theorem claimC10_witness :
    (∀ f ∈ deleteFlight "1" exFlights, f.id ≠ "1") ∧
    exFlightB ∈ deleteFlight "1" exFlights ∧
    deleteFlight "99" exFlights = exFlights :=
  ⟨(claimC10_delete_frame "1" exFlights).2.1,
   (claimC10_delete_frame "1" exFlights).2.2.1 exFlightB (by decide) (by decide),
   (claimC10_delete_frame "99" exFlights).2.2.2.2 (by decide)⟩

/-! ## Form validation (`src/components/FlightForm.tsx` `handleSubmit` and
`EditFlightDialog` (`src/unnamed/part_000`) `handleSubmit`)

The `calculateDistance` call sites use floating-point trigonometry; the
validation logic is independent of the distance value, so the two
submit handlers are parameterized by the distance function (the real-
number model of `calculateDistance` is developed separately below). -/

structure AirportInfo where
  name : String
  city : String
  coords : Coord
deriving DecidableEq, Repr

/-- The `airports` geocode table of `FlightForm.tsx` (lines 14–31). -/
def airports : List (String × AirportInfo) :=
  [ ("ATL", ⟨"Hartsfield-Jackson Atlanta International Airport", "Atlanta",
      (dec (-844281) 4, dec 336407 4)⟩),
    ("CDG", ⟨"Paris Charles de Gaulle Airport", "Paris", (dec 25479 4, dec 490097 4)⟩),
    ("CPT", ⟨"Cape Town International Airport", "Cape Town",
      (dec 186017 4, dec (-339649) 4)⟩),
    ("DXB", ⟨"Dubai International Airport", "Dubai", (dec 553644 4, dec 252532 4)⟩),
    ("FRA", ⟨"Frankfurt Airport", "Frankfurt", (dec 85622 4, dec 500379 4)⟩),
    ("JFK", ⟨"John F. Kennedy International Airport", "New York",
      (dec (-737781) 4, dec 406413 4)⟩),
    ("LAX", ⟨"Los Angeles International Airport", "Los Angeles",
      (dec (-1184081) 4, dec 339425 4)⟩),
    ("LHR", ⟨"London Heathrow Airport", "London", (dec (-4543) 4, dec 514700 4)⟩),
    ("MAD", ⟨"Madrid-Barajas Adolfo Su\xc3\xa1rez Airport", "Madrid",
      (dec (-35679) 4, dec 404719 4)⟩),
    ("MDW", ⟨"Chicago Midway International Airport", "Chicago",
      (dec (-877524) 4, dec 417868 4)⟩),
    ("NRT", ⟨"Narita International Airport", "Tokyo", (dec 1403929 4, dec 357720 4)⟩),
    ("ORD", ⟨"Chicago O\x27Hare International Airport", "Chicago",
      (dec (-879073) 4, dec 419742 4)⟩),
    ("SIN", ⟨"Singapore Changi Airport", "Singapore", (dec 1039915 4, dec 13644 4)⟩),
    ("SYD", ⟨"Sydney Kingsford Smith Airport", "Sydney",
      (dec 1511772 4, dec (-339399) 4)⟩),
    ("TPA", ⟨"Tampa International Airport", "Tampa", (dec (-825332) 4, dec 279755 4)⟩),
    ("YYZ", ⟨"Toronto Pearson International Airport", "Toronto",
      (dec (-796248) 4, dec 436777 4)⟩) ]

/-- The `airports` table of `EditFlightDialog` (`src/unnamed/part_000`,
lines 18–37): the same table plus `CUN`. -/
def airportsEdit : List (String × AirportInfo) :=
  [ ("ATL", ⟨"Hartsfield-Jackson Atlanta International Airport", "Atlanta",
      (dec (-844281) 4, dec 336407 4)⟩),
    ("CDG", ⟨"Paris Charles de Gaulle Airport", "Paris", (dec 25479 4, dec 490097 4)⟩),
    ("CPT", ⟨"Cape Town International Airport", "Cape Town",
      (dec 186017 4, dec (-339649) 4)⟩),
    ("CUN", ⟨"Cancun International Airport", "Cancun", (dec (-868770) 4, dec 210366 4)⟩),
    ("DXB", ⟨"Dubai International Airport", "Dubai", (dec 553644 4, dec 252532 4)⟩),
    ("FRA", ⟨"Frankfurt Airport", "Frankfurt", (dec 85622 4, dec 500379 4)⟩),
    ("JFK", ⟨"John F. Kennedy International Airport", "New York",
      (dec (-737781) 4, dec 406413 4)⟩),
    ("LAX", ⟨"Los Angeles International Airport", "Los Angeles",
      (dec (-1184081) 4, dec 339425 4)⟩),
    ("LHR", ⟨"London Heathrow Airport", "London", (dec (-4543) 4, dec 514700 4)⟩),
    ("MAD", ⟨"Madrid-Barajas Adolfo Su\xc3\xa1rez Airport", "Madrid",
      (dec (-35679) 4, dec 404719 4)⟩),
    ("MDW", ⟨"Chicago Midway International Airport", "Chicago",
      (dec (-877524) 4, dec 417868 4)⟩),
    ("NRT", ⟨"Narita International Airport", "Tokyo", (dec 1403929 4, dec 357720 4)⟩),
    ("ORD", ⟨"Chicago O\x27Hare International Airport", "Chicago",
      (dec (-879073) 4, dec 419742 4)⟩),
    ("SIN", ⟨"Singapore Changi Airport", "Singapore", (dec 1039915 4, dec 13644 4)⟩),
    ("SYD", ⟨"Sydney Kingsford Smith Airport", "Sydney",
      (dec 1511772 4, dec (-339399) 4)⟩),
    ("TPA", ⟨"Tampa International Airport", "Tampa", (dec (-825332) 4, dec 279755 4)⟩),
    ("YYZ", ⟨"Toronto Pearson International Airport", "Toronto",
      (dec (-796248) 4, dec 436777 4)⟩) ]

/-- The form state of both dialogs (empty string = unfilled, JavaScript
falsy). -/
structure FlightFormData where
  from_ : String
  to_ : String
  date : String
  aircraft : String
  airline : String
deriving DecidableEq, Repr

/-- A flight record without an id (`Omit<Flight, "id">`), as passed to
`onAddFlight`. -/
structure NewFlight where
  from_ : String
  to_ : String
  fromCoords : Coord
  toCoords : Coord
  date : String
  aircraft : String
  airline : String
  distance : Int
deriving DecidableEq, Repr

inductive SubmitResult where
  /-- `toast.error msg; return;` — no flight is added or modified. -/
  | rejected (message : String)
  /-- `onAddFlight` was called with this record. -/
  | added (f : NewFlight)
deriving DecidableEq, Repr

/-- `handleSubmit` of `FlightForm.tsx` (lines 68–111). -/
def handleSubmit (calcDist : Coord → Coord → Int)
    (formData : FlightFormData) : SubmitResult :=
  if formData.from_ = "" ∨ formData.to_ = "" ∨ formData.date = "" ∨
      formData.aircraft = "" ∨ formData.airline = "" then
    .rejected "Please fill in all fields"
  else if formData.from_ = formData.to_ then
    .rejected "Departure and arrival airports cannot be the same"
  else
    match airports.lookup formData.from_, airports.lookup formData.to_ with
    | some fromAirport, some toAirport =>
        .added
          { from_ := formData.from_
            to_ := formData.to_
            fromCoords := fromAirport.coords
            toCoords := toAirport.coords
            date := formData.date
            aircraft := formData.aircraft
            airline := formData.airline
            distance := calcDist fromAirport.coords toAirport.coords }
    | _, _ => .rejected "Please select valid airports"

inductive EditResult where
  /-- `toast.error msg; return;` — the flight list is untouched. -/
  | rejected (message : String)
  /-- `onSave` was called with this updated record. -/
  | saved (f : Flight)
deriving DecidableEq, Repr

/-- `handleSubmit` of `EditFlightDialog` (`src/unnamed/part_000`,
lines 73–113): same validation against its own table, the updated
record keeps the edited flight's id. -/
def editSubmit (calcDist : Coord → Coord → Int) (flight : Flight)
    (formData : FlightFormData) : EditResult :=
  if formData.from_ = "" ∨ formData.to_ = "" ∨ formData.date = "" ∨
      formData.aircraft = "" ∨ formData.airline = "" then
    .rejected "Please fill in all fields"
  else if formData.from_ = formData.to_ then
    .rejected "Departure and arrival airports cannot be the same"
  else
    match airportsEdit.lookup formData.from_, airportsEdit.lookup formData.to_ with
    | some fromAirport, some toAirport =>
        .saved
          { flight with
            from_ := formData.from_
            to_ := formData.to_
            fromCoords := fromAirport.coords
            toCoords := toAirport.coords
            date := formData.date
            aircraft := formData.aircraft
            airline := formData.airline
            distance := calcDist fromAirport.coords toAirport.coords }
    | _, _ => .rejected "Please select valid airports"

/-- C9: for every submission with a missing required field, identical
origin and destination, or an airport code absent from the geocode
table, both submit handlers surface a notification and return without
producing any flight record; and every record they do produce has
`from ≠ to` (and, for the edit dialog, the edited flight's id). -/
theorem claimC9_validation (calcDist : Coord → Coord → Int)
    (flight : Flight) (fd : FlightFormData) :
    (fd.from_ = "" ∨ fd.to_ = "" ∨ fd.date = "" ∨ fd.aircraft = "" ∨ fd.airline = "" →
      handleSubmit calcDist fd = .rejected "Please fill in all fields" ∧
      editSubmit calcDist flight fd = .rejected "Please fill in all fields") ∧
    (¬(fd.from_ = "" ∨ fd.to_ = "" ∨ fd.date = "" ∨ fd.aircraft = "" ∨ fd.airline = "") →
      fd.from_ = fd.to_ →
      handleSubmit calcDist fd =
        .rejected "Departure and arrival airports cannot be the same" ∧
      editSubmit calcDist flight fd =
        .rejected "Departure and arrival airports cannot be the same") ∧
    (¬(fd.from_ = "" ∨ fd.to_ = "" ∨ fd.date = "" ∨ fd.aircraft = "" ∨ fd.airline = "") →
      fd.from_ ≠ fd.to_ →
      (airports.lookup fd.from_ = none ∨ airports.lookup fd.to_ = none) →
      handleSubmit calcDist fd = .rejected "Please select valid airports") ∧
    (∀ nf : NewFlight, handleSubmit calcDist fd = .added nf → nf.from_ ≠ nf.to_) ∧
    (∀ f2 : Flight, editSubmit calcDist flight fd = .saved f2 →
      f2.from_ ≠ f2.to_ ∧ f2.id = flight.id) := by
  refine ⟨?_, ?_, ?_, ?_, ?_⟩
  · intro h
    simp [handleSubmit, editSubmit, h]
  · intro h1 h2
    push_neg at h1
    constructor <;> simp [handleSubmit, editSubmit, h1.1, h1.2.1, h1.2.2.1, h1.2.2.2.1,
      h1.2.2.2.2, h2]
  · intro h1 h2 h3
    simp only [handleSubmit, if_neg h1, if_neg h2]
    rcases h3 with h3 | h3 <;> rw [h3]
    cases List.lookup fd.from_ airports <;> rfl
  · intro nf hnf
    rw [handleSubmit] at hnf
    split at hnf
    · exact absurd hnf (by simp)
    split at hnf
    · exact absurd hnf (by simp)
    rename_i hne
    split at hnf
    · injection hnf with h
      subst h
      exact hne
    · exact absurd hnf (by simp)
  · intro f2 hf2
    rw [editSubmit] at hf2
    split at hf2
    · exact absurd hf2 (by simp)
    split at hf2
    · exact absurd hf2 (by simp)
    rename_i hne
    split at hf2
    · injection hf2 with h
      subst h
      exact ⟨hne, rfl⟩
    · exact absurd hf2 (by simp)

def dzero : Coord → Coord → Int := fun _ _ => 0

def fdEmpty : FlightFormData := ⟨"", "", "", "", ""⟩

def fdSame : FlightFormData := ⟨"JFK", "JFK", "2024-01-01", "Boeing 747", "BA"⟩

def fdBad : FlightFormData := ⟨"JFK", "XXX", "2024-01-01", "Boeing 747", "BA"⟩

def fdGood : FlightFormData := ⟨"JFK", "LHR", "2024-01-01", "Boeing 747", "BA"⟩

def nfGood : NewFlight :=
  ⟨"JFK", "LHR", (dec (-737781) 4, dec 406413 4), (dec (-4543) 4, dec 514700 4),
   "2024-01-01", "Boeing 747", "BA", 0⟩

/-- Witness for C9 at concrete submissions: all-empty form, identical
airports, unknown airport code, and a valid `JFK→LHR` submission. -/
theorem claimC9_witness :
    handleSubmit dzero fdEmpty = .rejected "Please fill in all fields" ∧
    handleSubmit dzero fdSame =
      .rejected "Departure and arrival airports cannot be the same" ∧
    handleSubmit dzero fdBad = .rejected "Please select valid airports" ∧
    nfGood.from_ ≠ nfGood.to_ :=
  ⟨((claimC9_validation dzero exFlightA fdEmpty).1 (by decide)).1,
   ((claimC9_validation dzero exFlightA fdSame).2.1 (by decide) (by decide)).1,
   (claimC9_validation dzero exFlightA fdBad).2.2.1 (by decide) (by decide) (by decide),
   (claimC9_validation dzero exFlightA fdGood).2.2.2.1 nfGood (by decide)⟩

/-! ## Date display (`formatDate` in `src/components/FlightList.tsx` and the
route-popup date in `src/components/FlightMap.tsx` line 165)

Stored dates are ISO `YYYY-MM-DD` strings.  `formatDate` splits the
string on `-` and builds `new Date(year, month-1, day)` — a *local*
date, whose displayed calendar components are exactly the parsed ones in
every timezone.  The map popup instead renders
`new Date(props?.date).toLocaleDateString()`: per ECMA-262 a date-only
ISO string is parsed as *UTC midnight*, and `toLocaleDateString` then
renders that instant in the viewer's local timezone, shifting the
calendar day wherever the offset is negative (west of UTC).

Civil-calendar arithmetic below follows the standard days-from-civil /
civil-from-days algorithms with floored division. -/

def digitsToNat? (cs : List Char) : Option Nat :=
  if cs ≠ [] ∧ cs.all (fun c => c.isDigit) then
    some (cs.foldl (fun acc c => acc * 10 + (c.toNat - 48)) 0)
  else none

/-- Parse `"YYYY-MM-DD"` into its numeric components, as
`dateString.split('-')` plus `parseInt` does in `formatDate`
(`FlightList.tsx` lines 22–28). -/
def parseDateParts (s : String) : Option (Int × Int × Int) :=
  match s.data.splitOn '-' with
  | [y, mo, d] =>
    match digitsToNat? y, digitsToNat? mo, digitsToNat? d with
    | some yy, some mm, some dd => some ((yy : Int), (mm : Int), (dd : Int))
    | _, _, _ => none
  | _ => none

/-- Days since 1970-01-01 of a civil date (proleptic Gregorian). -/
def daysFromCivil (y m d : Int) : Int :=
  let y' := y - (if m ≤ 2 then 1 else 0)
  let era := Int.fdiv y' 400
  let yoe := y' - era * 400
  let doy := Int.fdiv (153 * (m + (if m > 2 then -3 else 9)) + 2) 5 + d - 1
  let doe := yoe * 365 + Int.fdiv yoe 4 - Int.fdiv yoe 100 + doy
  era * 146097 + doe - 719468

/-- Civil date of a number of days since 1970-01-01. -/
def civilFromDays (z0 : Int) : Int × Int × Int :=
  let z := z0 + 719468
  let era := Int.fdiv z 146097
  let doe := z - era * 146097
  let yoe := Int.fdiv
    (doe - Int.fdiv doe 1460 + Int.fdiv doe 36524 - Int.fdiv doe 146096) 365
  let y := yoe + era * 400
  let doy := doe - (365 * yoe + Int.fdiv yoe 4 - Int.fdiv yoe 100)
  let mp := Int.fdiv (5 * doy + 2) 153
  let d := doy - Int.fdiv (153 * mp + 2) 5 + 1
  let m := mp + (if mp < 10 then 3 else -9)
  (y + (if m ≤ 2 then 1 else 0), m, d)

/-- The calendar day displayed by `formatDate` (`FlightList.tsx`): the
components are parsed directly into a local `Date`, so the displayed day
is the parsed `(y, m, d)` in every timezone (no offset parameter). -/
def formatDateDay (dateString : String) : Option (Int × Int × Int) :=
  parseDateParts dateString

/-- The calendar day displayed by the route popup (`FlightMap.tsx` line
165), `new Date(dateString).toLocaleDateString()`, for a viewer whose
timezone is `tzOffsetEastMin` minutes east of UTC: the date-only string
is parsed as UTC midnight and re-rendered in local time. -/
def popupDateDay (dateString : String) (tzOffsetEastMin : Int) :
    Option (Int × Int × Int) :=
  (parseDateParts dateString).map fun p =>
    civilFromDays (Int.fdiv (daysFromCivil p.1 p.2.1 p.2.2 * 1440 + tzOffsetEastMin) 1440)

/-- C8 (code bug): `formatDate` shows the stored calendar day unchanged,
but the map popup's `new Date(string)` path assumes UTC midnight: at UTC
offset −05:00 the stored date `2024-01-01` is displayed as 2023-12-31,
so not every display path parses components into a local date and the
displayed day does shift across timezones. -/
theorem claimC8_popup_date_shifts :
    formatDateDay "2024-01-01" = some (2024, 1, 1) ∧
    popupDateDay "2024-01-01" 0 = some (2024, 1, 1) ∧
    popupDateDay "2024-01-01" (-300) = some (2023, 12, 31) ∧
    popupDateDay "2024-01-01" (-300) ≠ formatDateDay "2024-01-01" := by
  refine ⟨by decide, by decide, by decide, by decide⟩

/-! ## Distance calculation (`calculateDistance` in
`src/components/FlightForm.tsx` lines 56–66, duplicated in
`src/unnamed/part_000` lines 61–71)

The function is modelled over the real numbers: JavaScript `Math.sin`,
`Math.cos`, `Math.sqrt`, `Math.atan2`, `Math.PI` become their real
counterparts, and `Math.round` becomes Mathlib's `round`
(`⌊x + 1/2⌋`, matching JavaScript round-half-up). -/

/-- JavaScript `Math.atan2 y x` over the reals. -/
noncomputable def atan2 (y x : ℝ) : ℝ :=
  if 0 < x then Real.arctan (y / x)
  else if x < 0 ∧ 0 ≤ y then Real.arctan (y / x) + Real.pi
  else if x < 0 ∧ y < 0 then Real.arctan (y / x) - Real.pi
  else if x = 0 ∧ 0 < y then Real.pi / 2
  else if x = 0 ∧ y < 0 then -(Real.pi / 2)
  else 0

/-- The intermediate `a` of `calculateDistance`:
`sin(dLat/2)² + cos(lat1)·cos(lat2)·sin(dLon/2)²` with the degree→radian
conversions written out (`dLat = (coord2[1]-coord1[1])·π/180`,
`dLon = (coord2[0]-coord1[0])·π/180`). -/
noncomputable def haversineTerm (coord1 coord2 : ℝ × ℝ) : ℝ :=
  Real.sin ((coord2.2 - coord1.2) * Real.pi / 180 / 2) *
    Real.sin ((coord2.2 - coord1.2) * Real.pi / 180 / 2) +
  Real.cos (coord1.2 * Real.pi / 180) * Real.cos (coord2.2 * Real.pi / 180) *
    Real.sin ((coord2.1 - coord1.1) * Real.pi / 180 / 2) *
    Real.sin ((coord2.1 - coord1.1) * Real.pi / 180 / 2)

/-- `calculateDistance`: `R = 3959` miles,
`c = 2·atan2(√a, √(1−a))`, result `Math.round(R·c)`. -/
noncomputable def calculateDistance (coord1 coord2 : ℝ × ℝ) : ℤ :=
  round ((3959 : ℝ) *
    (2 * atan2 (Real.sqrt (haversineTerm coord1 coord2))
               (Real.sqrt (1 - haversineTerm coord1 coord2))))

theorem haversineTerm_symm (A B : ℝ × ℝ) : haversineTerm A B = haversineTerm B A := by
  unfold haversineTerm
  rw [show (A.2 - B.2) * Real.pi / 180 / 2 = -((B.2 - A.2) * Real.pi / 180 / 2) by ring,
      show (A.1 - B.1) * Real.pi / 180 / 2 = -((B.1 - A.1) * Real.pi / 180 / 2) by ring]
  simp only [Real.sin_neg]
  ring

/-- C7: the distance function — great-circle miles by the haversine
formula with Earth radius 3959 miles, rounded to the nearest mile — is
symmetric and deterministic (equal inputs give the equal rounded
output). -/
theorem claimC7_distance_symmetric (A B Aq Bq : ℝ × ℝ) :
    calculateDistance A B = calculateDistance B A ∧
    (A = Aq → B = Bq → calculateDistance A B = calculateDistance Aq Bq) := by
  constructor
  · unfold calculateDistance
    rw [haversineTerm_symm]
  · intro h1 h2
    rw [h1, h2]

/-- Witness for C7 at concrete coordinates. -/
theorem claimC7_witness :
    calculateDistance (0, 0) (1, 1) = calculateDistance (1, 1) (0, 0) ∧
    calculateDistance (0, 0) (1, 1) = calculateDistance (0, 0) (1, 1) :=
  ⟨(claimC7_distance_symmetric (0, 0) (1, 1) (0, 0) (1, 1)).1,
   (claimC7_distance_symmetric (0, 0) (1, 1) (0, 0) (1, 1)).2 rfl rfl⟩

/-! ## The share-URL pipeline (`generateShareUrl` and the load effect of
`src/pages/Index.tsx`)

`generateShareUrl` (lines 124–147) builds
`btoa(JSON.stringify({flights, timestamp}))` and appends it as
`?data=<base64>` to the base URL (plain string concatenation, no
percent-encoding).  The load effect (lines 39–68) reads the parameter
back with `new URLSearchParams(window.location.search).get('data')`,
runs `JSON.parse(atob(sharedData))`, accepts the payload only when the
decoded value's `flights` property is an array (replacing the list and
stripping the URL parameter), shows an error toast when decoding threw,
and otherwise falls back to `localStorage`.

The platform primitives are modelled below: the JSON value grammar and
a `JSON.stringify`/`JSON.parse` pair over it (numbers as decimals
`m / 10^e`), WHATWG forgiving base64 for `btoa`/`atob` (`btoa` fails on
code points above 255; `atob` strips ASCII whitespace first), and
`URLSearchParams` form decoding (`+` becomes a space, `%XX` is
percent-decoded, pairs split on `&` and the first `=`). -/

inductive Json where
  | null : Json
  | bool (b : Bool) : Json
  | num (m : Int) (e : Nat) : Json
  | str (s : List Char) : Json
  | arr (elems : List Json) : Json
  | obj (fields : List (List Char × Json)) : Json
deriving Repr

/-- Digits of a natural number, most significant first. -/
def serNat (n : Nat) : List Char := Nat.toDigits 10 n

/-- Decimal rendering of `m / 10^e` (`JSON.stringify` of the number). -/
def serNum (m : Int) (e : Nat) : List Char :=
  let sign : List Char := if m < 0 then ['-'] else []
  let digits := serNat m.natAbs
  if e = 0 then sign ++ digits
  else
    let padded := List.replicate (e + 1 - digits.length) '0' ++ digits
    sign ++ padded.take (padded.length - e) ++ '.' :: padded.drop (padded.length - e)

def hexDigit (n : Nat) : Char :=
  if n < 10 then Char.ofNat (48 + n) else Char.ofNat (87 + n)

/-- `JSON.stringify` string quoting: escape `"` and `\`, short escapes
for the usual control characters, `\u00XX` for the remaining ones. -/
def escapeChar (c : Char) : List Char :=
  if c = '"' then ['\\', '"']
  else if c = '\\' then ['\\', '\\']
  else if c = Char.ofNat 8 then ['\\', 'b']
  else if c = Char.ofNat 9 then ['\\', 't']
  else if c = Char.ofNat 10 then ['\\', 'n']
  else if c = Char.ofNat 12 then ['\\', 'f']
  else if c = Char.ofNat 13 then ['\\', 'r']
  else if c.toNat < 32 then
    ['\\', 'u', '0', '0', hexDigit (c.toNat / 16), hexDigit (c.toNat % 16)]
  else [c]

def serStr (s : List Char) : List Char :=
  '"' :: (s.flatMap escapeChar ++ ['"'])

mutual

/-- `JSON.stringify` (no spacing argument — compact output). -/
def serialize : Json → List Char
  | .null => "null".data
  | .bool true => "true".data
  | .bool false => "false".data
  | .num m e => serNum m e
  | .str s => serStr s
  | .arr es => '[' :: (serializeItems es ++ [']'])
  | .obj fs => Char.ofNat 123 :: (serializeFields fs ++ [Char.ofNat 125])

def serializeItems : List Json → List Char
  | [] => []
  | [x] => serialize x
  | x :: xs => serialize x ++ ',' :: serializeItems xs

def serializeFields : List (List Char × Json) → List Char
  | [] => []
  | [(n, v)] => serStr n ++ ':' :: serialize v
  | (n, v) :: xs => serStr n ++ ':' :: serialize v ++ ',' :: serializeFields xs

end

def jsonWs (c : Char) : Bool :=
  c = ' ' || c = Char.ofNat 9 || c = Char.ofNat 10 || c = Char.ofNat 13

def skipWs (s : List Char) : List Char := s.dropWhile jsonWs

def hexVal? (c : Char) : Option Nat :=
  if '0' ≤ c ∧ c ≤ '9' then some (c.toNat - 48)
  else if 'a' ≤ c ∧ c ≤ 'f' then some (c.toNat - 87)
  else if 'A' ≤ c ∧ c ≤ 'F' then some (c.toNat - 55)
  else none

def escDecode (e : Char) : Option Char :=
  if e = '"' then some '"'
  else if e = '\\' then some '\\'
  else if e = '/' then some '/'
  else if e = 'b' then some (Char.ofNat 8)
  else if e = 'f' then some (Char.ofNat 12)
  else if e = 'n' then some (Char.ofNat 10)
  else if e = 'r' then some (Char.ofNat 13)
  else if e = 't' then some (Char.ofNat 9)
  else none

/-- JSON string body (after the opening quote): content up to the
closing quote, decoding escapes, rejecting raw control characters. -/
def pStringBody : List Char → Option (List Char × List Char)
  | [] => none
  | c :: rest =>
    if c = '"' then some ([], rest)
    else if c = '\\' then
      match rest with
      | [] => none
      | e :: rest2 =>
        if e = 'u' then
          match rest2 with
          | h1 :: h2 :: h3 :: h4 :: rest3 =>
            match hexVal? h1, hexVal? h2, hexVal? h3, hexVal? h4 with
            | some a, some b, some c2, some d =>
              (pStringBody rest3).map fun r =>
                (Char.ofNat (((a * 16 + b) * 16 + c2) * 16 + d) :: r.1, r.2)
            | _, _, _, _ => none
          | _ => none
        else
          match escDecode e with
          | some ch => (pStringBody rest2).map fun r => (ch :: r.1, r.2)
          | none => none
    else if c.toNat < 32 then none
    else (pStringBody rest).map fun r => (c :: r.1, r.2)

def digitsVal (ds : List Char) : Nat :=
  ds.foldl (fun a c => a * 10 + (c.toNat - 48)) 0

/-- Fraction part: mantissa so far, then optional `.digits`. -/
def parseFrac (m0 : Nat) (input : List Char) : Option (Nat × Nat × List Char) :=
  match input with
  | '.' :: rest =>
    let fd := rest.takeWhile Char.isDigit
    if fd = [] then none
    else some (m0 * 10 ^ fd.length + digitsVal fd, fd.length, rest.dropWhile Char.isDigit)
  | _ => some (m0, 0, input)

/-- Optional exponent part `e`/`E` with sign. -/
def parseExp (input : List Char) : Option (Int × List Char) :=
  match input with
  | c :: rest =>
    if c = 'e' ∨ c = 'E' then
      let signed : Int × List Char :=
        match rest with
        | '+' :: r => (1, r)
        | '-' :: r => (-1, r)
        | _ => (1, rest)
      let ed := signed.2.takeWhile Char.isDigit
      if ed = [] then none
      else some (signed.1 * (digitsVal ed : Int), signed.2.dropWhile Char.isDigit)
    else some (0, input)
  | [] => some (0, [])

/-- Fold the exponent into the `m / 10^e` representation. -/
def applyExp (m : Int) (e : Nat) (ex : Int) : Int × Nat :=
  if 0 ≤ ex then
    if e ≤ ex.toNat then (m * (10 : Int) ^ (ex.toNat - e), 0) else (m, e - ex.toNat)
  else (m, e + (-ex).toNat)

def pUnsignedNum (input : List Char) : Option (Int × Nat × List Char) :=
  let intDigits := input.takeWhile Char.isDigit
  if intDigits = [] then none
  else if 1 < intDigits.length ∧ intDigits.head? = some '0' then none
  else
    match parseFrac (digitsVal intDigits) (input.dropWhile Char.isDigit) with
    | none => none
    | some (m1, e1, in3) =>
      match parseExp in3 with
      | none => none
      | some (ex, in4) =>
        let r := applyExp (m1 : Int) e1 ex
        some (r.1, r.2, in4)

def pNumberFrom (input : List Char) : Option (Json × List Char) :=
  match input with
  | '-' :: rest => (pUnsignedNum rest).map fun r => (Json.num (-r.1) r.2.1, r.2.2)
  | _ => (pUnsignedNum input).map fun r => (Json.num r.1 r.2.1, r.2.2)

mutual

/-- One JSON value (model of `JSON.parse`'s grammar), fuel-bounded. -/
def pValue : Nat → List Char → Option (Json × List Char)
  | 0, _ => none
  | fuel + 1, input =>
    match skipWs input with
    | [] => none
    | c :: rest =>
      if c = Char.ofNat 123 then pMembers fuel rest
      else if c = '[' then pItems fuel rest
      else if c = '"' then (pStringBody rest).map fun r => (Json.str r.1, r.2)
      else if c = 'n' then
        match rest with
        | 'u' :: 'l' :: 'l' :: r => some (Json.null, r)
        | _ => none
      else if c = 't' then
        match rest with
        | 'r' :: 'u' :: 'e' :: r => some (Json.bool true, r)
        | _ => none
      else if c = 'f' then
        match rest with
        | 'a' :: 'l' :: 's' :: 'e' :: r => some (Json.bool false, r)
        | _ => none
      else pNumberFrom (c :: rest)

/-- Array items, after the opening bracket. -/
def pItems : Nat → List Char → Option (Json × List Char)
  | 0, _ => none
  | fuel + 1, input =>
    match skipWs input with
    | ']' :: rest => some (Json.arr [], rest)
    | _ =>
      match pValue fuel input with
      | none => none
      | some (v, rest) => pItemsRest fuel [v] rest

def pItemsRest : Nat → List Json → List Char → Option (Json × List Char)
  | 0, _, _ => none
  | fuel + 1, acc, input =>
    match skipWs input with
    | ',' :: rest =>
      match pValue fuel rest with
      | none => none
      | some (v, rest2) => pItemsRest fuel (acc ++ [v]) rest2
    | ']' :: rest => some (Json.arr acc, rest)
    | _ => none

/-- Object members, after the opening brace. -/
def pMembers : Nat → List Char → Option (Json × List Char)
  | 0, _ => none
  | fuel + 1, input =>
    match skipWs input with
    | [] => none
    | c :: rest =>
      if c = Char.ofNat 125 then some (Json.obj [], rest)
      else if c = '"' then
        match pStringBody rest with
        | none => none
        | some (name, rest2) =>
          match skipWs rest2 with
          | ':' :: rest3 =>
            match pValue fuel rest3 with
            | none => none
            | some (v, rest4) => pMembersRest fuel [(name, v)] rest4
          | _ => none
      else none

def pMembersRest : Nat → List (List Char × Json) → List Char →
    Option (Json × List Char)
  | 0, _, _ => none
  | fuel + 1, acc, input =>
    match skipWs input with
    | [] => none
    | c :: rest =>
      if c = ',' then
        match skipWs rest with
        | '"' :: rest1 =>
          match pStringBody rest1 with
          | none => none
          | some (name, rest2) =>
            match skipWs rest2 with
            | ':' :: rest3 =>
              match pValue fuel rest3 with
              | none => none
              | some (v, rest4) => pMembersRest fuel (acc ++ [(name, v)]) rest4
            | _ => none
        | _ => none
      else if c = Char.ofNat 125 then some (Json.obj acc, rest)
      else none

end

/-- `JSON.parse`: parse one value, require only whitespace after it.
The fuel is ample: every two recursion levels consume at least one
input character. -/
def jsonParse (s : List Char) : Option Json :=
  match pValue (2 * s.length + 4) s with
  | some (j, rest) => if skipWs rest = [] then some j else none
  | none => none

/-! ## `btoa` / `atob` (WHATWG forgiving base64) -/

def b64Alpha : List Char :=
  "ABCDEFGHIJKLMNOPQRSTUVWXYZabcdefghijklmnopqrstuvwxyz0123456789+/".data

def b64Char (n : Nat) : Char := b64Alpha.getD n 'A'

def b64EncodeBytes : List Nat → List Char
  | [] => []
  | [a] => [b64Char (a / 4), b64Char (a % 4 * 16), '=', '=']
  | [a, b] => [b64Char (a / 4), b64Char (a % 4 * 16 + b / 16), b64Char (b % 16 * 4), '=']
  | a :: b :: c :: rest =>
    b64Char (a / 4) :: b64Char (a % 4 * 16 + b / 16) ::
    b64Char (b % 16 * 4 + c / 64) :: b64Char (c % 64) :: b64EncodeBytes rest

/-- `btoa`: throws (`none`) on any code point above 255, otherwise
base64 of the latin-1 bytes. -/
def btoa (s : List Char) : Option (List Char) :=
  if s.all fun c => c.toNat ≤ 255 then some (b64EncodeBytes (s.map Char.toNat))
  else none

def isAsciiWs (c : Char) : Bool :=
  c.toNat = 9 || c.toNat = 10 || c.toNat = 12 || c.toNat = 13 || c.toNat = 32

def b64Index (c : Char) : Nat := b64Alpha.findIdx (· == c)

def b64DecodeSix : List Nat → List Nat
  | a :: b :: c :: d :: rest =>
    (a * 4 + b / 16) :: (b % 16 * 16 + c / 4) :: (c % 4 * 64 + d) :: b64DecodeSix rest
  | [a, b] => [a * 4 + b / 16]
  | [a, b, c] => [a * 4 + b / 16, b % 16 * 16 + c / 4]
  | _ => []

/-- `atob` (forgiving-base64 decode): strip ASCII whitespace; strip up
to two trailing `=` when the length is a multiple of four; fail when the
remaining length is `1 mod 4` or a character is outside the alphabet;
decode 6-bit groups, discarding leftover bits. -/
def atob (input : List Char) : Option (List Char) :=
  let data := input.filter fun c => !isAsciiWs c
  let data2 :=
    if data.length % 4 = 0 then
      match data.reverse with
      | '=' :: '=' :: r => r.reverse
      | '=' :: r => r.reverse
      | _ => data
    else data
  if data2.length % 4 = 1 then none
  else if data2.all fun c => b64Alpha.contains c then
    some ((b64DecodeSix (data2.map b64Index)).map Char.ofNat)
  else none

/-! ## `URLSearchParams` (application/x-www-form-urlencoded parsing) -/

def plusToSpace (s : List Char) : List Char :=
  s.map fun c => if c = '+' then ' ' else c

def percentDecode : List Char → List Char
  | [] => []
  | '%' :: h1 :: h2 :: rest =>
    match hexVal? h1, hexVal? h2 with
    | some a, some b => Char.ofNat (a * 16 + b) :: percentDecode rest
    | _, _ => '%' :: percentDecode (h1 :: h2 :: rest)
  | c :: rest => c :: percentDecode rest

def formDecode (s : List Char) : List Char := percentDecode (plusToSpace s)

/-- `new URLSearchParams(query).get(key)`: split on `&`, split each pair
at the first `=`, form-decode names and values, return the first value
whose decoded name equals `key`. -/
def searchParamsGet (query : List Char) (key : List Char) : Option (List Char) :=
  (((query.splitOn '&').filter (· ≠ [])).map fun p =>
      (formDecode (p.takeWhile (· ≠ '=')),
       formDecode ((p.dropWhile (· ≠ '=')).drop 1))).find?
    (fun kv => kv.1 == key) |>.map (·.2)

/-! ## The share payload and the two ends of the pipeline -/

/-- The JSON value `JSON.stringify` sees for one flight: the property
insertion order of `addFlight` (`{...flight, id}`: the form fields first,
`id` last). -/
def Flight.toJson (f : Flight) : Json :=
  .obj
    [ ("from".data, .str f.from_.data),
      ("to".data, .str f.to_.data),
      ("fromCoords".data, .arr [.num f.fromCoords.1.m f.fromCoords.1.e,
                                .num f.fromCoords.2.m f.fromCoords.2.e]),
      ("toCoords".data, .arr [.num f.toCoords.1.m f.toCoords.1.e,
                              .num f.toCoords.2.m f.toCoords.2.e]),
      ("date".data, .str f.date.data),
      ("aircraft".data, .str f.aircraft.data),
      ("airline".data, .str f.airline.data),
      ("distance".data, .num f.distance 0),
      ("id".data, .str f.id.data) ]

/-- `dataToShare` of `generateShareUrl` (lines 131–134). -/
def sharePayload (flights : List Flight) (timestamp : String) : Json :=
  .obj [ ("flights".data, .arr (flights.map Flight.toJson)),
         ("timestamp".data, .str timestamp.data) ]

/-- `generateShareUrl` (lines 130–146): `btoa(JSON.stringify(dataToShare))`
spliced into the URL by plain concatenation; the result models the query
string of the produced URL (`none` = `btoa` threw and the catch branch
showed an error instead of a link). -/
def generateShareQuery (flights : List Flight) (timestamp : String) :
    Option (List Char) :=
  (btoa (serialize (sharePayload flights timestamp))).map
    fun encodedData => "data=".data ++ encodedData

inductive ShareDecode where
  /-- `atob`, `JSON.parse` or the `decodedData.flights` access threw. -/
  | threw : ShareDecode
  /-- Parsed, but `flights` is missing, falsy, or not an array. -/
  | rejected : ShareDecode
  /-- `decodedData.flights` is an array: the app accepts it. -/
  | accepted (flights : List Json) : ShareDecode
deriving Repr

/-- Reading `decodedData.flights`: throws on `null`, is `undefined` on
non-objects, and on objects returns the last binding of the key (as
`JSON.parse` builds its objects). -/
def flightsField (j : Json) : Except Unit (Option Json) :=
  match j with
  | .null => .error ()
  | .obj fields =>
    .ok ((fields.reverse.find? fun kv => kv.1 == "flights".data).map (·.2))
  | _ => .ok none

def jsTruthy (j : Json) : Bool :=
  match j with
  | .null => false
  | .bool b => b
  | .num m _ => m != 0
  | .str s => !s.isEmpty
  | .arr _ => true
  | .obj _ => true

/-- Lines 46–47 of the load effect:
`JSON.parse(atob(sharedData))` and the
`decodedData.flights && Array.isArray(decodedData.flights)` validation. -/
def decodeShared (d : List Char) : ShareDecode :=
  match atob d with
  | none => .threw
  | some decoded =>
    match jsonParse decoded with
    | none => .threw
    | some j =>
      match flightsField j with
      | .error _ => .threw
      | .ok none => .rejected
      | .ok (some v) =>
        if jsTruthy v then
          match v with
          | .arr items => .accepted items
          | _ => .rejected
        else .rejected

/-- Observable outcome of the load effect: the flight state set
(`Json.arr []` is the initial `useState([])`), the toasts shown, and
whether the `data` parameter was stripped from the URL
(`window.history.replaceState`). -/
structure LoadResult where
  flights : Json
  notifications : List String
  urlCleared : Bool
deriving Repr

/-- Lines 60–68: the normal load path from `localStorage`
(`JSON.parse` failure is caught and leaves the initial empty list). -/
def loadFromStorage (stored : Option (List Char))
    (notifications : List String) : LoadResult :=
  match stored with
  | none => ⟨Json.arr [], notifications, false⟩
  | some s =>
    match jsonParse s with
    | some j => ⟨j, notifications, false⟩
    | none => ⟨Json.arr [], notifications, false⟩

/-- The load effect (lines 39–68): a present `data` parameter is
decoded; acceptance replaces the list, toasts success and strips the
parameter (local storage is not read); a decode exception toasts an
error and falls through to the storage path; failed validation falls
through silently. -/
def loadEffect (dataParam : Option (List Char))
    (stored : Option (List Char)) : LoadResult :=
  match dataParam with
  | some d =>
    match decodeShared d with
    | .accepted items =>
      ⟨Json.arr items, ["Shared flight data loaded successfully!"], true⟩
    | .threw => loadFromStorage stored ["Failed to load shared flight data"]
    | .rejected => loadFromStorage stored []
  | none => loadFromStorage stored []

/-! ## Claims about the share pipeline -/

set_option maxRecDepth 40000

/-- Timestamp used for the concrete share example (the claim quantifies
over the flight list; `generateShareUrl` stamps the current time). -/
def shareTs : String := "2024-06-01T12:00:00.000Z"

/-- A valid flight whose share payload's base64 contains `+` (the
free-text airline contains `>`, byte 62, aligned on a base64 triple). -/
def shareFlight : Flight :=
  { id := "1717243200000", from_ := "JFK", to_ := "CDG"
    fromCoords := (dec (-737781) 4, dec 406413 4)
    toCoords := (dec 25479 4, dec 490097 4)
    date := "2024-01-01", aircraft := "Boeing 777"
    airline := "Fly>High", distance := 3635 }

/-- C5 (code bug): the encode side splices the raw base64 into the URL
(`?data=${encodedData}` with no percent-encoding) while the decode side
reads it back through `URLSearchParams`, which form-decodes `+` to a
space; `atob` then strips the space, so for any payload whose base64
contains `+` the decode throws and the app falls back to local storage:
encode-then-decode does not yield the shared list.  Concretely, for the
single-flight list above: the base64 contains `+`, the parameter read
back differs from the encoded payload, decoding throws, and the loaded
list is the stored one (empty), not the shared one. -/
theorem claimC5_share_roundtrip_broken :
    '+' ∈ (btoa (serialize (sharePayload [shareFlight] shareTs))).getD [] ∧
    generateShareQuery [shareFlight] shareTs ≠ none ∧
    searchParamsGet ((generateShareQuery [shareFlight] shareTs).getD []) "data".data ≠
      btoa (serialize (sharePayload [shareFlight] shareTs)) ∧
    decodeShared ((searchParamsGet ((generateShareQuery [shareFlight] shareTs).getD [])
        "data".data).getD []) = .threw ∧
    loadEffect (searchParamsGet ((generateShareQuery [shareFlight] shareTs).getD [])
        "data".data) (some "[]".data) =
      ⟨Json.arr [], ["Failed to load shared flight data"], false⟩ ∧
    (Json.arr [] : Json) ≠ Json.arr ([shareFlight].map Flight.toJson) := by
  refine ⟨by decide, by decide, by decide, rfl, rfl, by simp [Flight.toJson]⟩

/-- Counterexample for C6: a malformed share parameter is not ignored
*silently* — the catch branch shows the error toast
`"Failed to load shared flight data"` (while the parameter is indeed
ignored and flights load from storage). -/
theorem claimC6_counterexample :
    (loadEffect (some "!".data) (some "[]".data)).notifications ≠ [] ∧
    (loadEffect (some "!".data) (some "[]".data)).notifications =
      ["Failed to load shared flight data"] ∧
    (loadEffect (some "!".data) (some "[]".data)).flights = Json.arr [] ∧
    (loadEffect (some "!".data) (some "[]".data)).urlCleared = false := by
  exact ⟨by decide, rfl, rfl, rfl⟩

/-- C6 (amended): the shared payload is accepted only when base64
decode and JSON parse succeed and the decoded value's `flights` field is
an array; acceptance replaces the in-memory list with exactly that array
and strips the query parameter.  On a decode/parse exception the
parameter is ignored, an **error notification is shown** (not silent),
and the flight list is the one of the normal storage load path; on
failed validation the parameter is ignored silently with the same
fallback. -/
theorem claimC6_share_decode (d : List Char) (stored : Option (List Char)) :
    (∀ items, decodeShared d = .accepted items →
      loadEffect (some d) stored =
        ⟨Json.arr items, ["Shared flight data loaded successfully!"], true⟩ ∧
      ∃ s, atob d = some s ∧ ∃ j, jsonParse s = some j ∧
        flightsField j = .ok (some (.arr items))) ∧
    (decodeShared d = .threw →
      loadEffect (some d) stored =
        { loadEffect none stored with
          notifications := ["Failed to load shared flight data"] }) ∧
    (decodeShared d = .rejected →
      loadEffect (some d) stored = loadEffect none stored) := by
  refine ⟨?_, ?_, ?_⟩
  · intro items h
    refine ⟨by simp [loadEffect, h], ?_⟩
    rw [decodeShared] at h
    split at h
    · exact ShareDecode.noConfusion h
    rename_i s ha
    split at h
    · exact ShareDecode.noConfusion h
    rename_i j hp
    split at h
    · exact ShareDecode.noConfusion h
    · exact ShareDecode.noConfusion h
    rename_i v hf
    split at h
    · split at h
      · rename_i items0 hv
        injection h with hh
        subst hh
        exact ⟨s, ha, j, hp, hf⟩
      · exact ShareDecode.noConfusion h
    · exact ShareDecode.noConfusion h
  · intro h
    simp only [loadEffect, h]
    cases stored with
    | none => rfl
    | some s =>
      simp only [loadFromStorage]
      rcases hp : jsonParse s <;> simp [hp]
  · intro h
    simp only [loadEffect, h]

/-- Base64 of `'{"flights":[],"timestamp":"T"}'` — a payload the decode
path accepts. -/
def goodShareB64 : List Char := "eyJmbGlnaHRzIjpbXSwidGltZXN0YW1wIjoiVCJ9".data

/-- Witness for the amended C6 at concrete inputs: an accepted payload
(fresh empty flight list, success toast, URL cleared), a malformed
parameter (error toast, storage fallback), and a parsed-but-invalid
payload (`"[]"`: silent storage fallback). -/
theorem claimC6_witness :
    loadEffect (some goodShareB64) (some "[7]".data) =
      ⟨Json.arr [], ["Shared flight data loaded successfully!"], true⟩ ∧
    loadEffect (some "!".data) (some "[7]".data) =
      { loadEffect none (some "[7]".data) with
        notifications := ["Failed to load shared flight data"] } ∧
    loadEffect (some "W10=".data) (some "[7]".data) =
      loadEffect none (some "[7]".data) :=
  ⟨((claimC6_share_decode goodShareB64 (some "[7]".data)).1 [] (by rfl)).1,
   (claimC6_share_decode "!".data (some "[7]".data)).2.1 (by rfl),
   (claimC6_share_decode "W10=".data (some "[7]".data)).2.2 (by rfl)⟩
